import Mathlib

/-!
Verification of the orina2api proxy core against its specification.

The development shallowly embeds the three core components of the repository:

* the credential pool (`src/app/services/token_manager.py`, class `TokenManager`),
* the session orchestrator (`src/app/services/proxy.py`, class `ProxyService`),
* the stream translator (`src/app/models/schemas.py`,
  `parse_sse_line` and `convert_stream_to_openai_format`).

Python dictionaries are embedded as functions with the `.get` default built in,
Python sets as duplicate-free lists, `datetime` values as natural-number
seconds (with `datetime.min`, the default sort key for never-used credentials,
embedded as the default key 0), and network calls as oracles gathered in a
`Backend` structure.  Logging calls are not modelled.  Async generators are
modelled by the list of fragments they yield, plus an explicit exceptional
outcome where an exception escapes the generator to its consumer.
-/

/-- Credentials are opaque secret strings (`token_manager.py`). -/
abbrev Token := String

/-- State of `TokenManager` (`token_manager.py:11-18`).  The field
`current_index` of the Python class is written in `__init__` and never read
anywhere, so it is omitted.  `token_last_used` and `token_failure_count` are
dictionaries, embedded as total functions with the `.get` defaults
(`none` for a missing last-used entry, `0` for a missing failure count).
`failed_tokens` is a set, embedded as a duplicate-free list. -/
structure TokenManager where
  tokens : List Token
  failedTokens : List Token
  tokenLastUsed : Token → Option Nat
  tokenFailureCount : Token → Nat

/-- Embeds `TokenManager.__init__` (`token_manager.py:12-18`): copies the token list
and starts with empty bookkeeping. -/
def TokenManager.init (toks : List Token) : TokenManager :=
  { tokens := toks
    failedTokens := []
    tokenLastUsed := fun _ => none
    tokenFailureCount := fun _ => 0 }

/-- Embeds `cleanup_threshold = timedelta(minutes=10)` (`token_manager.py:85`),
in seconds. -/
def cleanupThresholdSeconds : Nat := 600

/-- The restore condition of `_cleanup_failed_tokens`
(`token_manager.py:88-91`): a failed token is restored when it has a recorded
last-used time and strictly more than the threshold has elapsed since.
Natural subtraction matches the Python comparison: a non-positive elapsed
time is never greater than the (positive) threshold. -/
def shouldRestore (st : TokenManager) (now : Nat) (t : Token) : Bool :=
  match st.tokenLastUsed t with
  | some lu => cleanupThresholdSeconds < now - lu
  | none => false

/-- Embeds `_cleanup_failed_tokens` (`token_manager.py:82-95`): collects the failed
tokens satisfying the restore condition and removes exactly those from the
failed set.  Failure counts and last-used times are untouched. -/
def cleanupFailedTokens (st : TokenManager) (now : Nat) : TokenManager :=
  { st with failedTokens := st.failedTokens.filter (fun t => !(shouldRestore st now t)) }

/-- The sort key of `_get_least_used_token` (`token_manager.py:52-55`):
`self.token_last_used.get(t, datetime.min)`.  `datetime.min` is embedded as
the key 0, strictly below every time recorded by `get_token` in a run whose
clock is positive, so never-used tokens rank oldest. -/
def lastUsedKey (st : TokenManager) (t : Token) : Nat :=
  (st.tokenLastUsed t).getD 0

/-- First element of a list attaining the minimal key; ties keep the earliest
element.  This models `sorted(available_tokens, key=...)[0]`
(`token_manager.py:52-56`): the sort of Python is stable, so the head of the sorted
list is the first element of the input attaining the minimal key. -/
def argminKey (key : Token → Nat) : List Token → Option Token
  | [] => none
  | t :: ts =>
    match argminKey key ts with
    | none => some t
    | some u => if key t ≤ key u then some t else some u

/-- Embeds `_get_least_used_token` (`token_manager.py:46-56`).  The empty-list guard
returns `self.tokens[0]`, embedded totally with `headD`; `get_token` never
reaches either fallback with an empty list. -/
def getLeastUsedToken (st : TokenManager) (avail : List Token) : Token :=
  if avail.isEmpty then st.tokens.headD ""
  else (argminKey (lastUsedKey st) avail).getD ""

/-- Embeds `get_token` (`token_manager.py:20-44`), with the wall clock passed in as
`now`.  Returns the selected token (or `none` on an empty pool) together with
the updated manager state.  The `asyncio.Lock` makes the whole body atomic;
the embedding is a single state transformer. -/
def getToken (st : TokenManager) (now : Nat) : Option Token × TokenManager :=
  if st.tokens.isEmpty then (none, st)
  else
    let st1 := cleanupFailedTokens st now
    let avail0 := st1.tokens.filter (fun t => !(st1.failedTokens.contains t))
    if avail0.isEmpty then
      let st2 := { st1 with failedTokens := [], tokenFailureCount := fun _ => 0 }
      let tok := getLeastUsedToken st2 st1.tokens
      (some tok, { st2 with tokenLastUsed := Function.update st2.tokenLastUsed tok (some now) })
    else
      let tok := getLeastUsedToken st1 avail0
      (some tok, { st1 with tokenLastUsed := Function.update st1.tokenLastUsed tok (some now) })

/-- Embeds `set.add` on the failed set: a no-op when the element is present. -/
def setAdd (s : List Token) (t : Token) : List Token :=
  if t ∈ s then s else s ++ [t]

/-- Embeds `mark_token_failed` (`token_manager.py:58-69`): add to the failed set,
increment the failure count, and when the count reaches 5 remove the token
from the pool list (`list.remove` removes the first occurrence, `List.erase`;
the `if token in self.tokens` guard is subsumed by `erase` being a no-op on a
missing element).  The `error_msg` argument is only logged and is carried in
the orchestrator event trace instead. -/
def markTokenFailed (st : TokenManager) (t : Token) : TokenManager :=
  let cnt := Function.update st.tokenFailureCount t (st.tokenFailureCount t + 1)
  { tokens := if 5 ≤ cnt t then st.tokens.erase t else st.tokens
    failedTokens := setAdd st.failedTokens t
    tokenLastUsed := st.tokenLastUsed
    tokenFailureCount := cnt }

/-- Embeds `mark_token_success` (`token_manager.py:71-80`): remove from the failed
set when present and reset the failure count to 0 (the Python
`if token in self.token_failure_count` guard is observationally the identity
under the `.get(..., 0)` default). -/
def markTokenSuccess (st : TokenManager) (t : Token) : TokenManager :=
  { st with
    failedTokens := st.failedTokens.erase t
    tokenFailureCount := Function.update st.tokenFailureCount t 0 }

/-- One entry of `get_pool_status()["token_details"]` (`token_manager.py:115-123`). -/
structure TokenDetail where
  tokenSuffix : String
  status : String
  failureCount : Nat
  lastUsed : Option Nat
  deriving DecidableEq, Repr

/-- Embeds `token[-10:]` on a Python `str`. -/
def strTakeRight (s : String) (n : Nat) : String :=
  String.mk ((s.data.reverse.take n).reverse)

/-- The dictionary returned by `get_pool_status` (`token_manager.py:109-124`).
`available_tokens` is computed by the source as a difference of two lengths
and can be negative, hence `Int`. -/
structure PoolStatus where
  totalTokens : Nat
  failedCount : Nat
  availableTokens : Int
  tokenDetails : List TokenDetail
  deriving DecidableEq, Repr

/-- Embeds `get_pool_status` (`token_manager.py:109-124`): sizes, the difference of
sizes, and one detail row per entry of the pool list (tokens absent from the
pool list get no row, failed or not). -/
def getPoolStatus (st : TokenManager) : PoolStatus :=
  { totalTokens := st.tokens.length
    failedCount := st.failedTokens.length
    availableTokens := (st.tokens.length : Int) - (st.failedTokens.length : Int)
    tokenDetails := st.tokens.map (fun t =>
      { tokenSuffix := strTakeRight t 10
        status := if st.failedTokens.contains t then "failed" else "active"
        failureCount := st.tokenFailureCount t
        lastUsed := st.tokenLastUsed t }) }

/-- Pool operations available to clients of the manager, for stating
invariants over arbitrary operation sequences.  `acquire` carries the wall
clock of the call. -/
inductive PoolOp
  | acquire (now : Nat)
  | markFailed (t : Token)
  | markSuccess (t : Token)
  deriving DecidableEq, Repr

/-- Run a sequence of pool operations, collecting the result of every
`acquire` call. -/
def runOps : TokenManager → List PoolOp → TokenManager × List (Option Token)
  | st, [] => (st, [])
  | st, PoolOp.acquire now :: ops =>
    let r := getToken st now
    let rest := runOps r.2 ops
    (rest.1, r.1 :: rest.2)
  | st, PoolOp.markFailed t :: ops => runOps (markTokenFailed st t) ops
  | st, PoolOp.markSuccess t :: ops => runOps (markTokenSuccess st t) ops

/-- Embeds `n` consecutive `mark_token_failed` calls on the same token. -/
def iterateMarkFailed (st : TokenManager) (t : Token) : Nat → TokenManager
  | 0 => st
  | n + 1 => iterateMarkFailed (markTokenFailed st t) t n

/-- Whether a `get_token` call at clock `now` takes the wholesale-reset branch
(`token_manager.py:33-37`): the pool list is non-empty and, after the
time-based cleanup, no pool token is outside the failed set. -/
def resetFires (st : TokenManager) (now : Nat) : Bool :=
  !st.tokens.isEmpty &&
    ((cleanupFailedTokens st now).tokens.filter
      (fun t => !((cleanupFailedTokens st now).failedTokens.contains t))).isEmpty

/-- Message roles accepted by the request schema (`schemas.py:14`). -/
inductive Role
  | system
  | user
  | assistant
  deriving DecidableEq, Repr

/-- Embeds `ChatMessage` (`schemas.py:12-15`). -/
structure ChatMessageM where
  role : Role
  content : String
  deriving DecidableEq, Repr

/-- One line of the combined message built by `messages_to_single_message`
(`schemas.py:143-149`). -/
def messageLine (m : ChatMessageM) : String :=
  match m.role with
  | Role.system => "System: " ++ m.content ++ "\n"
  | Role.user => "User: " ++ m.content ++ "\n"
  | Role.assistant => "Assistant: " ++ m.content ++ "\n"

/-- Python `str.strip()` on ASCII data: drop whitespace from both ends. -/
def strTrim (s : String) : String :=
  String.mk (((s.data.dropWhile Char.isWhitespace).reverse.dropWhile Char.isWhitespace).reverse)

/-- Embeds `messages_to_single_message` (`schemas.py:132-151`): a single user message
passes through verbatim; otherwise every message becomes a `Role: content`
line and the concatenation is stripped. -/
def messagesToSingleMessage : List ChatMessageM → String
  | [] => ""
  | [m] => if m.role = Role.user then m.content else strTrim (messageLine m)
  | msgs => strTrim (String.join (msgs.map messageLine))

/-- Python `s[:n]` on a `str`. -/
def strTake (s : String) (n : Nat) : String :=
  String.mk (s.data.take n)

/-- Python `s[n:]` on a `str`. -/
def strDrop (s : String) (n : Nat) : String :=
  String.mk (s.data.drop n)

/-- Python `s.startswith(p)`. -/
def strStartsWith (s p : String) : Bool :=
  strTake s p.data.length == p

/-- Python `s.rstrip("\t")`: drop trailing tab characters. -/
def rstripTabs (s : String) : String :=
  String.mk ((s.data.reverse.dropWhile (fun c => c == '\t')).reverse)

/-- The `delta` object read from a parsed stream chunk
(`convert_stream_to_openai_format`, `schemas.py:247-248`): the translator
reads `delta.get("role")` and `delta.get("content", "")`. -/
structure SseDelta where
  role : Option String
  content : Option String
  deriving DecidableEq, Repr

/-- One element of `data["choices"]` as read by the translator
(`schemas.py:246-249`). -/
structure SseChoice where
  delta : Option SseDelta
  finishReason : Option String
  deriving DecidableEq, Repr

/-- The fields of a parsed JSON chunk that the translator reads
(`schemas.py:241-277`): `choices` and the optional `usage` triple
`(prompt_tokens, completion_tokens, total_tokens)` with `.get(..., 0)`
defaults already applied. -/
structure SseData where
  choices : List SseChoice
  usage : Option (Nat × Nat × Nat)
  deriving DecidableEq, Repr

/-- Result of `parse_sse_line` when it does not return `None`
(`schemas.py:171,176`): the end-of-stream signal or a data chunk. -/
inductive SseParsed
  | done
  | data (d : SseData)
  deriving DecidableEq, Repr

/-- Embeds `parse_sse_line` (`schemas.py:153-203`), with `json.loads` supplied as the
oracle `jparse` (`none` embeds a `json.JSONDecodeError`).  Blank lines,
unrecognized framings, and JSON failures all yield `none`. -/
def parseSseLine (jparse : String → Option SseData) (line : String) : Option SseParsed :=
  if strTrim line == "" then none
  else if strStartsWith line "message\t" then
    let jsonPart := rstripTabs (strDrop line 8)
    if jsonPart == "[DONE]" then some SseParsed.done
    else match jparse jsonPart with
      | some d => some (SseParsed.data d)
      | none => none
  else if strStartsWith line "data: " then
    let jsonPart := strDrop line 6
    if strTrim jsonPart == "[DONE]" then some SseParsed.done
    else match jparse jsonPart with
      | some d => some (SseParsed.data d)
      | none => none
  else none

/-- One event observed by `convert_stream_to_openai_format` while iterating
`stream_response.aiter_lines()`: either the next line arrives, or the
transport raises at that point of the iteration (the situation handled by the
`except` block at `schemas.py:288-307`). -/
inductive StreamItem
  | line (s : String)
  | raiseErr (msg : String)
  deriving DecidableEq, Repr

/-- The fields of one serialized `ChatCompletionStreamResponse` chunk
(`schemas.py:74-81`): identity fields, the delta, the finish reason, and the
optional usage triple.  A yielded `"data: {json}\n\n"` fragment is embedded
as this record rather than as serialized text, since no claim depends on the
JSON field layout. -/
structure StreamChunkM where
  id : String
  created : Nat
  model : String
  deltaRole : Option String
  deltaContent : Option String
  finishReason : Option String
  usage : Option (Nat × Nat × Nat)
  deriving DecidableEq, Repr

/-- One fragment yielded by the translator or by `_create_error_stream`:
a serialized chunk, or the literal terminal marker `"data: [DONE]\n\n"`. -/
inductive Frag
  | chunk (c : StreamChunkM)
  | done
  deriving DecidableEq, Repr

/-- The synthetic error chunk built in the `except` handler of
`convert_stream_to_openai_format` (`schemas.py:291-305`) and, with the same
shape, by `_create_error_stream` (`proxy.py:719-733`). -/
def streamErrorChunk (reqId : String) (created : Nat) (model msg : String) : StreamChunkM :=
  { id := reqId
    created := created
    model := model
    deltaRole := some "assistant"
    deltaContent := some ("Error: " ++ msg)
    finishReason := some "error"
    usage := none }

/-- Embeds `convert_stream_to_openai_format` (`schemas.py:205-307`) as a function
from the iteration events to the list of yielded fragments.  Empty lines and
unparseable lines are skipped; a `[DONE]` signal yields the terminal marker
and breaks; a data chunk without choices is skipped; otherwise a translated
chunk is yielded and iteration continues.  When the iteration raises, the
surrounding `try` yields one synthetic error chunk followed by the terminal
marker.  A clean end of the line iterator falls out of the loop without
yielding anything further. -/
def convertStream (jparse : String → Option SseData) (reqId : String) (model : String)
    (created : Nat) : List StreamItem → List Frag
  | [] => []
  | StreamItem.raiseErr msg :: _ =>
    [Frag.chunk (streamErrorChunk reqId created model msg), Frag.done]
  | StreamItem.line l :: rest =>
    if l == "" then convertStream jparse reqId model created rest
    else
      match parseSseLine jparse l with
      | none => convertStream jparse reqId model created rest
      | some SseParsed.done => [Frag.done]
      | some (SseParsed.data d) =>
        match d.choices with
        | [] => convertStream jparse reqId model created rest
        | c :: _ =>
          Frag.chunk
            { id := reqId
              created := created
              model := model
              deltaRole := (c.delta.getD { role := none, content := none }).role
              deltaContent := some (((c.delta.getD { role := none, content := none }).content).getD "")
              finishReason := c.finishReason
              usage := d.usage } ::
            convertStream jparse reqId model created rest

/-- Whether iterating the given events ever reaches a terminal cause: a
`[DONE]` signal line or a raised transport error.  The translator emits its
terminal marker exactly on these runs. -/
def reachesTerminal (jparse : String → Option SseData) : List StreamItem → Bool
  | [] => false
  | StreamItem.raiseErr _ :: _ => true
  | StreamItem.line l :: rest =>
    if l == "" then reachesTerminal jparse rest
    else
      match parseSseLine jparse l with
      | some SseParsed.done => true
      | _ => reachesTerminal jparse rest

/-- The fields of `ChatCompletionRequest` (`schemas.py:17-27`) that the
orchestrator reads: model name, message list, and the stream flag.  Sampling
parameters are validated by the schema but never forwarded
(`forward_request` builds its payload from the conversation id and model name
only, `proxy.py:472-475`). -/
structure ChatCompletionRequestM where
  model : String
  messages : List ChatMessageM
  stream : Bool
  deriving DecidableEq, Repr

/-- Python `len(content.split())`: the number of maximal non-whitespace runs. -/
def countWordsAux : List Char → Bool → Nat
  | [], _ => 0
  | c :: cs, inWord =>
    if c.isWhitespace then countWordsAux cs false
    else (if inWord then 0 else 1) + countWordsAux cs true

/-- Word count used by the usage heuristic of `_convert_to_openai_response`
(`proxy.py:674`). -/
def countWords (s : String) : Nat :=
  countWordsAux s.data false

/-- The observable content of a `ChatCompletionResponse` built by the
orchestrator: identity, the single choice (role, content, finish reason) and
the usage triple.  `id = none` embeds the default-factory random id used when
`_create_error_response` omits the field (`schemas.py:67`); the `object` and
`created` constants carry no claim-relevant information and are omitted. -/
structure RespModel where
  id : Option String
  model : String
  role : String
  content : String
  finishReason : String
  promptTokens : Nat
  completionTokens : Nat
  totalTokens : Nat
  deriving DecidableEq, Repr

/-- Embeds `_create_error_response` (`proxy.py:694-715`): an assistant message
`"Error: ..."` with `finish_reason = "error"` and an all-zero usage. -/
def createErrorResponse (model msg : String) : RespModel :=
  { id := none
    model := model
    role := "assistant"
    content := "Error: " ++ msg
    finishReason := "error"
    promptTokens := 0
    completionTokens := 0
    totalTokens := 0 }

/-- The successful branch of `_convert_to_openai_response`
(`proxy.py:662-688`) applied to an already-extracted content string:
`finish_reason = "stop"`, a fixed prompt estimate of 50 tokens and
`int(len(content.split()) * 1.3)` completion tokens.  The float product is
embedded as the rational `words * 13 / 10` truncated; no claim inspects these
heuristic values.  The ordered fallback extraction of the content from the
backend JSON (`proxy.py:645-660`) is abstracted: the `Backend` oracle hands
the orchestrator the extracted content directly. -/
def convertToOpenaiResponse (reqId model content : String) : RespModel :=
  { id := some reqId
    model := model
    role := "assistant"
    content := content
    finishReason := "stop"
    promptTokens := 50
    completionTokens := countWords content * 13 / 10
    totalTokens := 50 + countWords content * 13 / 10 }

/-- Outcome of one non-streaming chat call (`proxy.py:550-627`), as classified
by the code: a success whose body parses (carrying the extracted content), a
success whose `response.json()` raises, a non-success HTTP status with its
body text, or one of the three exception classes of the `except` clauses. -/
inductive ChatOutcome
  | ok (content : String)
  | okParseFail (msg : String)
  | status (code : Nat) (text : String)
  | timeout
  | requestError (msg : String)
  | otherError (msg : String)
  deriving DecidableEq, Repr

/-- The backend oracles: responses of the network endpoints consumed by the
orchestrator, plus `random.choice` (an arbitrary selection function) and
`json.loads` for the stream translator.  The chat-call oracle is indexed by
the zero-based attempt counter of the retry loop in addition to the
credential, so that per-attempt scenarios are expressible. -/
structure Backend where
  projects : Token → Option (List String)
  createProject : Token → Option String
  choice : List String → String
  createConv : Token → String → Option String
  sendOk : Token → String → Bool
  chat : Nat → Token → ChatOutcome
  streamStatus : Token → String → Nat
  streamItems : Token → String → List StreamItem
  streamBodyText : Token → String → String
  jparse : String → Option SseData

/-- Observable actions of one `forward_request` run: pool interactions,
session-setup calls, message sends, chat-call attempts, and backoff sleeps
(durations in seconds). -/
inductive Event
  | acquired (t : Option Token)
  | gotProjects (t : Token)
  | pickedProject (t : Token) (pid : String)
  | createdProject (t : Token) (pid : Option String)
  | purgedConversations (t : Token) (pid : String)
  | createdConversation (t : Token) (cid : Option String)
  | sentMessage (t : Token) (cid : String) (content : String)
  | chatCall (attempt : Nat) (t : Token) (conv : String)
  | markedFailed (t : Token) (reason : String)
  | markedSuccess (t : Token)
  | slept (seconds : Nat)
  deriving DecidableEq, Repr

/-- Embeds `get_project_and_conversation` (`proxy.py:339-372`): list projects and
pick one at random when any exist, otherwise create one (failure is fatal:
`(None, None)`); then delete all existing conversations in the project
(best-effort, the result is only logged, `proxy.py:357-363` — embedded as the
`purgedConversations` event); then create a conversation (failure yields
`(project_id, None)`). -/
def getProjectAndConversation (be : Backend) (t : Token) :
    (Option String × Option String) × List Event :=
  match be.projects t with
  | some (p :: ps) =>
    let pid := be.choice (p :: ps)
    let evs := [Event.gotProjects t, Event.pickedProject t pid,
                Event.purgedConversations t pid]
    match be.createConv t pid with
    | some cid => ((some pid, some cid), evs ++ [Event.createdConversation t (some cid)])
    | none => ((some pid, none), evs ++ [Event.createdConversation t none])
  | _ =>
    match be.createProject t with
    | none => ((none, none), [Event.gotProjects t, Event.createdProject t none])
    | some pid =>
      let evs := [Event.gotProjects t, Event.createdProject t (some pid),
                  Event.purgedConversations t pid]
      match be.createConv t pid with
      | some cid => ((some pid, some cid), evs ++ [Event.createdConversation t (some cid)])
      | none => ((some pid, none), evs ++ [Event.createdConversation t none])

/-- Embeds `_create_error_stream` (`proxy.py:717-735`): an async generator yielding
exactly one error chunk and then the terminal marker. -/
def createErrorStreamFrags (reqId : String) (created : Nat) (model msg : String) : List Frag :=
  [Frag.chunk (streamErrorChunk reqId created model msg), Frag.done]

/-- The data captured by the `stream_generator` closure built at
`proxy.py:485-527`: the credential cookie, the conversation id of the
payload, and the identity fields baked into translated chunks. -/
structure StreamSpec where
  token : Token
  conv : String
  reqId : String
  model : String
  created : Nat
  deriving DecidableEq, Repr

/-- What `forward_request` hands back to its caller: a completed response, the
trivially safe two-fragment error stream of `_create_error_stream`, or the
live `stream_generator()` closure, whose body runs only when the caller
consumes it. -/
inductive FwdResult
  | completion (r : RespModel)
  | errorStream (frags : List Frag)
  | liveStream (sp : StreamSpec)
  deriving DecidableEq, Repr

/-- Embeds `settings.max_retries` default (`config.py:33`). -/
def settingsMaxRetries : Nat := 3

/-- Embeds `settings.retry_delay` default (`config.py:34`), in seconds
(the Python value is the float `1.0`). -/
def settingsRetryDelay : Nat := 1

/-- The non-streaming retry loop of `forward_request` (`proxy.py:478-636`),
by recursion on the number of remaining attempts (the zero-based attempt
index is `maxRetries - remaining`).  The branches:

* fuel exhausted — the `for` loop ended, which happens only after a
  `continue` on the last attempt (an auth rotation): the post-loop code marks
  the current credential failed with "Max retries exceeded"
  (`proxy.py:629-636`);
* HTTP 200/201 — mark success, convert (a body-parse failure still follows
  the mark and yields an error response, `proxy.py:561-578`);
* HTTP 401/403 — mark the credential failed, acquire another one
  (`break` to the post-loop when the pool is empty: the source then passes
  `None` to `mark_token_failed`, whose logging slices `None` and raises; that
  path is embedded as an escaped `TypeError` and is exercised by no claim),
  rebuild project and conversation — note that no message is re-sent — and
  continue (`proxy.py:580-593`);
* HTTP 429/502/503/504 — when attempts remain, sleep
  `retry_delay * 2 ** attempt` seconds and retry with the same credential and
  conversation; on the last attempt, fall through to the generic error return
  (`proxy.py:595-608`), which does NOT mark the credential failed;
* any other status — generic error return (`proxy.py:603-608`);
* timeout or request error — when attempts remain, sleep the constant
  `retry_delay` and retry (`proxy.py:610-622`); on the last attempt the loop
  ends and the post-loop marking runs;
* any other exception — `break` to the post-loop marking (`proxy.py:624-627`).

The `stats` counters are threaded by the source but inspected by no claim and
are omitted. -/
def loopNS (be : Backend) (reqId : String) (created now : Nat) (model : String)
    (maxRetries retryDelay : Nat) :
    Nat → Token → String → TokenManager → List Event →
    Except String RespModel × TokenManager × List Event
  | 0, tok, _conv, pool, evs =>
    (Except.ok (createErrorResponse model "Request failed after all retries"),
     markTokenFailed pool tok, evs ++ [Event.markedFailed tok "Max retries exceeded"])
  | r + 1, tok, conv, pool, evs =>
    let attempt := maxRetries - (r + 1)
    let evs := evs ++ [Event.chatCall attempt tok conv]
    match be.chat attempt tok with
    | ChatOutcome.ok content =>
      (Except.ok (convertToOpenaiResponse reqId model content),
       markTokenSuccess pool tok, evs ++ [Event.markedSuccess tok])
    | ChatOutcome.okParseFail msg =>
      (Except.ok (createErrorResponse model ("Failed to parse response: " ++ msg)),
       markTokenSuccess pool tok, evs ++ [Event.markedSuccess tok])
    | ChatOutcome.status code text =>
      if code = 401 ∨ code = 403 then
        let pool1 := markTokenFailed pool tok
        let evs := evs ++ [Event.markedFailed tok ("Auth error: " ++ toString code)]
        match getToken pool1 now with
        | (none, pool2) =>
          (Except.error "TypeError: mark_token_failed(None) in the post-loop marking",
           pool2, evs ++ [Event.acquired none])
        | (some tok2, pool2) =>
          let evs := evs ++ [Event.acquired (some tok2)]
          match getProjectAndConversation be tok2 with
          | ((some _, some cid2), sevs) =>
            loopNS be reqId created now model maxRetries retryDelay r tok2 cid2 pool2 (evs ++ sevs)
          | ((_, _), sevs) =>
            (Except.ok (createErrorResponse model "Request failed after all retries"),
             markTokenFailed pool2 tok2,
             evs ++ sevs ++ [Event.markedFailed tok2 "Max retries exceeded"])
      else if code = 429 ∨ code = 502 ∨ code = 503 ∨ code = 504 then
        if attempt < maxRetries - 1 then
          loopNS be reqId created now model maxRetries retryDelay r tok conv pool
            (evs ++ [Event.slept (retryDelay * 2 ^ attempt)])
        else
          (Except.ok (createErrorResponse model ("HTTP " ++ toString code ++ ": " ++ text)),
           pool, evs)
      else
        (Except.ok (createErrorResponse model ("HTTP " ++ toString code ++ ": " ++ text)),
         pool, evs)
    | ChatOutcome.timeout =>
      if attempt < maxRetries - 1 then
        loopNS be reqId created now model maxRetries retryDelay r tok conv pool
          (evs ++ [Event.slept retryDelay])
      else
        (Except.ok (createErrorResponse model "Request failed after all retries"),
         markTokenFailed pool tok, evs ++ [Event.markedFailed tok "Max retries exceeded"])
    | ChatOutcome.requestError _ =>
      if attempt < maxRetries - 1 then
        loopNS be reqId created now model maxRetries retryDelay r tok conv pool
          (evs ++ [Event.slept retryDelay])
      else
        (Except.ok (createErrorResponse model "Request failed after all retries"),
         markTokenFailed pool tok, evs ++ [Event.markedFailed tok "Max retries exceeded"])
    | ChatOutcome.otherError _ =>
      (Except.ok (createErrorResponse model "Request failed after all retries"),
       markTokenFailed pool tok, evs ++ [Event.markedFailed tok "Max retries exceeded"])

/-- Embeds `forward_request` (`proxy.py:424-636`), with the generated request id, the
created timestamp and the pool clock passed in (the source draws them from
`uuid4` and `datetime.now`), and the global `token_manager` threaded
explicitly.  Acquire a credential (pool exhaustion yields the error response
or the safe error stream); build project and conversation (failure marks the
credential failed); send the flattened message (failure marks the credential
failed); then: for a streaming request the first loop iteration returns the
`stream_generator()` closure at once — creating a generator runs none of its
body, so the `try/except` of `proxy.py:528-546` cannot fire at this point and
the retry loop never advances — and for a non-streaming request the retry
loop runs. -/
def forwardRequest (be : Backend) (reqId : String) (created now : Nat)
    (req : ChatCompletionRequestM) (pool : TokenManager) :
    Except String FwdResult × TokenManager × List Event :=
  let content := messagesToSingleMessage req.messages
  match getToken pool now with
  | (none, pool1) =>
    (Except.ok (if req.stream then
        FwdResult.errorStream (createErrorStreamFrags reqId created req.model
          "No available tokens in the pool")
      else
        FwdResult.completion (createErrorResponse req.model "No available tokens in the pool")),
     pool1, [Event.acquired none])
  | (some tok, pool1) =>
    let evs := [Event.acquired (some tok)]
    match getProjectAndConversation be tok with
    | ((some _, some cid), sevs) =>
      let evs := evs ++ sevs ++ [Event.sentMessage tok cid content]
      if be.sendOk tok cid then
        if req.stream then
          (Except.ok (FwdResult.liveStream
            { token := tok, conv := cid, reqId := reqId, model := req.model, created := created }),
           pool1, evs)
        else
          let r := loopNS be reqId created now req.model settingsMaxRetries settingsRetryDelay
            settingsMaxRetries tok cid pool1 evs
          (r.1.map FwdResult.completion, r.2)
      else
        (Except.ok (if req.stream then
            FwdResult.errorStream (createErrorStreamFrags reqId created req.model
              "Failed to send message")
          else
            FwdResult.completion (createErrorResponse req.model "Failed to send message")),
         markTokenFailed pool1 tok, evs ++ [Event.markedFailed tok "Failed to send message"])
    | ((_, _), sevs) =>
      (Except.ok (if req.stream then
          FwdResult.errorStream (createErrorStreamFrags reqId created req.model
            "Failed to get project or conversation")
        else
          FwdResult.completion (createErrorResponse req.model
            "Failed to get project or conversation")),
       markTokenFailed pool1 tok,
       evs ++ sevs ++ [Event.markedFailed tok "Failed to get project or conversation"])

/-- What the consumer of the returned stream observes: the generator either
completes after yielding its fragments, or yields some fragments and then an
exception escapes to the consumer. -/
inductive StreamConsumption
  | yields (frags : List Frag)
  | raises (frags : List Frag) (msg : String)
  deriving DecidableEq, Repr

/-- Consuming the `stream_generator()` closure (`proxy.py:485-527`): the body
runs only now.  On HTTP 200/201 the credential is marked successful and the
translated stream is relayed; on HTTP 401/403 the body raises
`httpx.HTTPStatusError` (`proxy.py:512-518`) — nothing inside the generator
catches it, and the `except` around the long-returned `return
stream_generator()` is out of scope, so the exception escapes to the
consumer; on any other status the error-stream fragments are yielded. -/
def consumeStream (be : Backend) (sp : StreamSpec) (pool : TokenManager) :
    StreamConsumption × TokenManager :=
  let code := be.streamStatus sp.token sp.conv
  if code = 200 ∨ code = 201 then
    (StreamConsumption.yields
      (convertStream be.jparse sp.reqId sp.model sp.created (be.streamItems sp.token sp.conv)),
     markTokenSuccess pool sp.token)
  else if code = 401 ∨ code = 403 then
    (StreamConsumption.raises [] ("Auth error: " ++ toString code), pool)
  else
    (StreamConsumption.yields
      (createErrorStreamFrags sp.reqId sp.created sp.model
        ("HTTP " ++ toString code ++ ": " ++ be.streamBodyText sp.token sp.conv)),
     pool)

/-- Embeds line 31 of `token_manager.py` applied to the post-cleanup state:
the list of pool tokens outside the failed set, in pool order. -/
def availAfterCleanup (st : TokenManager) (now : Nat) : List Token :=
  (cleanupFailedTokens st now).tokens.filter
    (fun t => !((cleanupFailedTokens st now).failedTokens.contains t))

/-- State effect of a single pool operation. -/
def applyOpState (st : TokenManager) : PoolOp → TokenManager
  | PoolOp.acquire now => (getToken st now).2
  | PoolOp.markFailed t => markTokenFailed st t
  | PoolOp.markSuccess t => markTokenSuccess st t

/-- A fresh one-credential pool, for concrete scenarios. -/
def poolInit1 : TokenManager := TokenManager.init ["tokA"]

/-- A fresh three-credential pool, for the rotation scenario. -/
def poolInit3 : TokenManager := TokenManager.init ["tokA", "tokB", "tokC"]

/-- A benign backend for the concrete scenarios: one existing project,
conversation creation succeeds with a per-credential id, message sends
succeed.  The chat oracle is overridden per scenario. -/
def baseBackend : Backend :=
  { projects := fun _ => some ["p1"]
    createProject := fun _ => none
    choice := fun l => l.headD ""
    createConv := fun t _ => some ("conv-" ++ t)
    sendOk := fun _ _ => true
    chat := fun _ _ => ChatOutcome.timeout
    streamStatus := fun _ _ => 200
    streamItems := fun _ _ => []
    streamBodyText := fun _ _ => ""
    jparse := fun _ => none }

/-- Backend for the 401, 401, 200 scenario: the chat call fails with HTTP 401
on attempts 0 and 1 and succeeds on attempt 2. -/
def be401 : Backend :=
  { baseBackend with
    chat := fun a _ =>
      if a = 2 then ChatOutcome.ok "hello there" else ChatOutcome.status 401 "Unauthorized" }

/-- Backend whose chat call returns HTTP 503 on every attempt. -/
def be503 : Backend :=
  { baseBackend with chat := fun _ _ => ChatOutcome.status 503 "Service Unavailable" }

/-- Backend whose chat call times out on every attempt. -/
def beTimeout : Backend :=
  { baseBackend with chat := fun _ _ => ChatOutcome.timeout }

/-- Backend whose streaming chat call answers HTTP 401. -/
def beAuthStream : Backend :=
  { baseBackend with streamStatus := fun _ _ => 401 }

/-- A one-message non-streaming request. -/
def reqNS : ChatCompletionRequestM :=
  { model := "m", messages := [{ role := Role.user, content := "hi" }], stream := false }

/-- The same request with the stream flag set. -/
def reqStream : ChatCompletionRequestM :=
  { reqNS with stream := true }

/-- A parsed data chunk whose single choice carries the delta content "hi". -/
def sseDataHi : SseData :=
  { choices := [{ delta := some { role := none, content := some "hi" }, finishReason := none }]
    usage := none }

/-- A concrete `json.loads` oracle: the payload "HI" parses to `sseDataHi`,
everything else fails to parse. -/
def jparseHi : String → Option SseData :=
  fun s => if s = "HI" then some sseDataHi else none

/-- Pool state for the cleanup-versus-reset counterexample: both credentials
are in the failed set, credential "a" was last used at time 0 (so a call far
enough in the future restores it), credential "b" has a nonzero failure
count and no recorded last use. -/
def stC7 : TokenManager :=
  { tokens := ["a", "b"]
    failedTokens := ["a", "b"]
    tokenLastUsed := fun t => if t = "a" then some 0 else none
    tokenFailureCount := fun t => if t = "b" then 1 else 0 }

/-- Pool state for the LRU witness: two available credentials, "b" last used
at time 5, "a" never used. -/
def stC8 : TokenManager :=
  { tokens := ["a", "b"]
    failedTokens := []
    tokenLastUsed := fun t => if t = "b" then some 5 else none
    tokenFailureCount := fun _ => 0 }

/-- Pool state whose single credential is failed with count 3 and no recorded
last use: the next acquire takes the wholesale-reset branch. -/
def stReset : TokenManager :=
  { tokens := ["a"]
    failedTokens := ["a"]
    tokenLastUsed := fun _ => none
    tokenFailureCount := fun _ => 3 }

theorem argminKey_eq_none {key : Token → Nat} : ∀ {l : List Token},
    argminKey key l = none → l = [] := by
  intro l h
  cases l with
  | nil => rfl
  | cons t ts =>
    cases hx : argminKey key ts with
    | none =>
      simp only [argminKey, hx] at h
      exact Option.noConfusion h
    | some u =>
      simp only [argminKey, hx] at h
      by_cases hle : key t ≤ key u
      · rw [if_pos hle] at h; exact absurd h (by simp)
      · rw [if_neg hle] at h; exact absurd h (by simp)

theorem argminKey_mem {key : Token → Nat} : ∀ {l : List Token} {t : Token},
    argminKey key l = some t → t ∈ l := by
  intro l
  induction l with
  | nil => intro t h; simp [argminKey] at h
  | cons x xs ih =>
    intro t h
    cases hx : argminKey key xs with
    | none =>
      simp only [argminKey, hx, Option.some.injEq] at h
      subst h; exact List.mem_cons_self x xs
    | some u =>
      simp only [argminKey, hx] at h
      by_cases hle : key x ≤ key u
      · rw [if_pos hle] at h
        simp only [Option.some.injEq] at h
        subst h; exact List.mem_cons_self x xs
      · rw [if_neg hle] at h
        simp only [Option.some.injEq] at h
        subst h; exact List.mem_cons_of_mem x (ih hx)

theorem argminKey_le {key : Token → Nat} : ∀ {l : List Token} {t : Token},
    argminKey key l = some t → ∀ u ∈ l, key t ≤ key u := by
  intro l
  induction l with
  | nil => intro t h; simp [argminKey] at h
  | cons x xs ih =>
    intro t h u hu
    cases hx : argminKey key xs with
    | none =>
      simp only [argminKey, hx, Option.some.injEq] at h
      subst h
      have hxs : xs = [] := argminKey_eq_none hx
      subst hxs
      rcases List.mem_singleton.mp hu with rfl
      exact Nat.le_refl _
    | some v =>
      simp only [argminKey, hx] at h
      by_cases hle : key x ≤ key v
      · rw [if_pos hle] at h
        simp only [Option.some.injEq] at h
        subst h
        rcases List.mem_cons.mp hu with rfl | hu2
        · exact Nat.le_refl _
        · exact Nat.le_trans hle (ih hx u hu2)
      · rw [if_neg hle] at h
        simp only [Option.some.injEq] at h
        subst h
        rcases List.mem_cons.mp hu with rfl | hu2
        · exact Nat.le_of_lt (Nat.lt_of_not_le hle)
        · exact ih hx u hu2

theorem argminKey_find {key : Token → Nat} : ∀ {l : List Token} {t : Token},
    argminKey key l = some t →
      l.find? (fun u => key u == key t) = some t := by
  intro l
  induction l with
  | nil => intro t h; simp [argminKey] at h
  | cons x xs ih =>
    intro t h
    cases hx : argminKey key xs with
    | none =>
      simp only [argminKey, hx, Option.some.injEq] at h
      subst h
      exact List.find?_cons_of_pos _ (by simp)
    | some v =>
      simp only [argminKey, hx] at h
      by_cases hle : key x ≤ key v
      · rw [if_pos hle] at h
        simp only [Option.some.injEq] at h
        subst h
        exact List.find?_cons_of_pos _ (by simp)
      · rw [if_neg hle] at h
        simp only [Option.some.injEq] at h
        subst h
        have hlt : key v < key x := Nat.lt_of_not_le hle
        have hfx : (key x == key v) = false := by
          simp only [beq_eq_false_iff_ne, ne_eq]
          exact Nat.ne_of_gt hlt
        simp only [List.find?, hfx, cond_false]
        exact ih hx

theorem getLeastUsedToken_spec (st : TokenManager) {avail : List Token}
    (h : avail ≠ []) :
    getLeastUsedToken st avail ∈ avail ∧
    (∀ u ∈ avail, lastUsedKey st (getLeastUsedToken st avail) ≤ lastUsedKey st u) ∧
    avail.find? (fun u => lastUsedKey st u == lastUsedKey st (getLeastUsedToken st avail)) =
      some (getLeastUsedToken st avail) := by
  have hne : avail.isEmpty = false := by
    cases avail with
    | nil => exact absurd rfl h
    | cons a l => rfl
  cases hx : argminKey (lastUsedKey st) avail with
  | none => exact absurd (argminKey_eq_none hx) h
  | some t =>
    have htok : getLeastUsedToken st avail = t := by
      simp [getLeastUsedToken, hne, hx]
    rw [htok]
    exact ⟨argminKey_mem hx, argminKey_le hx, argminKey_find hx⟩

theorem getToken_tokens (st : TokenManager) (now : Nat) :
    (getToken st now).2.tokens = st.tokens := by
  unfold getToken
  by_cases he : st.tokens.isEmpty
  · rw [if_pos he]
  · rw [if_neg he]
    by_cases ha : ((cleanupFailedTokens st now).tokens.filter
        (fun t => !((cleanupFailedTokens st now).failedTokens.contains t))).isEmpty
    · rw [if_pos ha]; rfl
    · rw [if_neg ha]; rfl


theorem getToken_mem {st : TokenManager} {now : Nat} {t : Token}
    (h : (getToken st now).1 = some t) : t ∈ st.tokens := by
  unfold getToken at h
  by_cases he : st.tokens.isEmpty
  · rw [if_pos he] at h
    exact Option.noConfusion h
  · rw [if_neg he] at h
    have hne : st.tokens ≠ [] := by
      cases hl : st.tokens with
      | nil => rw [hl] at he; exact absurd rfl he
      | cons a l => simp
    by_cases ha : ((cleanupFailedTokens st now).tokens.filter
        (fun t => !((cleanupFailedTokens st now).failedTokens.contains t))).isEmpty
    · rw [if_pos ha] at h
      simp only [Option.some.injEq] at h
      subst h
      have hct : (cleanupFailedTokens st now).tokens = st.tokens := rfl
      have := (@getLeastUsedToken_spec
        { cleanupFailedTokens st now with failedTokens := [], tokenFailureCount := fun _ => 0 }
        (cleanupFailedTokens st now).tokens (by rw [hct]; exact hne)).1
      rw [hct] at this
      exact this
    · rw [if_neg ha] at h
      simp only [Option.some.injEq] at h
      subst h
      have hane : ((cleanupFailedTokens st now).tokens.filter
          (fun t => !((cleanupFailedTokens st now).failedTokens.contains t))) ≠ [] := by
        intro hc; rw [hc] at ha; exact ha rfl
      have hm := (getLeastUsedToken_spec (cleanupFailedTokens st now) hane).1
      have := List.mem_of_mem_filter hm
      exact this

theorem getToken_none_iff (st : TokenManager) (now : Nat) :
    (getToken st now).1 = none ↔ st.tokens = [] := by
  unfold getToken
  by_cases he : st.tokens.isEmpty
  · rw [if_pos he]
    simp only [true_iff]
    cases hl : st.tokens with
    | nil => rfl
    | cons a l => rw [hl] at he; exact absurd he (by simp)
  · rw [if_neg he]
    constructor
    · intro h
      by_cases ha : ((cleanupFailedTokens st now).tokens.filter
          (fun t => !((cleanupFailedTokens st now).failedTokens.contains t))).isEmpty
      · rw [if_pos ha] at h; exact Option.noConfusion h
      · rw [if_neg ha] at h; exact Option.noConfusion h
    · intro h
      rw [h] at he; exact absurd rfl he

theorem getToken_count (st : TokenManager) (now : Nat) :
    (getToken st now).2.tokenFailureCount =
      if resetFires st now then (fun _ => 0) else st.tokenFailureCount := by
  unfold getToken resetFires
  by_cases he : st.tokens.isEmpty
  · rw [if_pos he]
    rw [if_neg (by rw [he]; exact Bool.false_ne_true)]
  · have he2 : st.tokens.isEmpty = false := by
      cases hb : st.tokens.isEmpty with
      | false => rfl
      | true => exact absurd hb he
    rw [if_neg he]
    by_cases ha : ((cleanupFailedTokens st now).tokens.filter
        (fun t => !((cleanupFailedTokens st now).failedTokens.contains t))).isEmpty
    · rw [if_pos ha]
      rw [if_pos (by rw [he2, ha]; rfl)]
    · have ha2 : ((cleanupFailedTokens st now).tokens.filter
          (fun t => !((cleanupFailedTokens st now).failedTokens.contains t))).isEmpty = false := by
        cases hb : ((cleanupFailedTokens st now).tokens.filter
            (fun t => !((cleanupFailedTokens st now).failedTokens.contains t))).isEmpty with
        | false => rfl
        | true => exact absurd hb ha
      rw [if_neg ha]
      rw [if_neg (by rw [he2, ha2]; exact Bool.false_ne_true)]
      rfl

theorem getToken_reset_state (st : TokenManager) (now : Nat)
    (hne : st.tokens ≠ []) (ha : availAfterCleanup st now = []) :
    (getToken st now).1.isSome = true ∧
    (getToken st now).2.failedTokens = [] ∧
    ∀ u, (getToken st now).2.tokenFailureCount u = 0 := by
  have he : st.tokens.isEmpty = false := by
    cases hl : st.tokens with
    | nil => exact absurd hl hne
    | cons a l => rfl
  have ha2 : ((cleanupFailedTokens st now).tokens.filter
      (fun t => !((cleanupFailedTokens st now).failedTokens.contains t))).isEmpty = true := by
    have : availAfterCleanup st now = (cleanupFailedTokens st now).tokens.filter
        (fun t => !((cleanupFailedTokens st now).failedTokens.contains t)) := rfl
    rw [← this, ha]
    rfl
  unfold getToken
  rw [if_neg (by rw [he]; exact Bool.false_ne_true), if_pos ha2]
  exact ⟨rfl, rfl, fun u => rfl⟩

theorem markTokenFailed_count_self (st : TokenManager) (t : Token) :
    (markTokenFailed st t).tokenFailureCount t = st.tokenFailureCount t + 1 := by
  simp [markTokenFailed, Function.update_same]

theorem markTokenFailed_not_mem {st : TokenManager} {t : Token} (u : Token)
    (h : t ∉ st.tokens) : t ∉ (markTokenFailed st u).tokens := by
  simp only [markTokenFailed]
  split
  · intro hc; exact h (List.mem_of_mem_erase hc)
  · exact h

theorem markTokenFailed_nodup {st : TokenManager} (h : st.tokens.Nodup) (t : Token) :
    (markTokenFailed st t).tokens.Nodup := by
  simp only [markTokenFailed]
  split
  · exact h.erase t
  · exact h

theorem markTokenFailed_evicts {st : TokenManager} {t : Token}
    (h5 : 5 ≤ st.tokenFailureCount t + 1) (hd : st.tokens.Nodup) :
    t ∉ (markTokenFailed st t).tokens := by
  simp only [markTokenFailed]
  rw [if_pos (by rw [Function.update_same]; exact h5)]
  intro hc
  exact (List.Nodup.mem_erase_iff hd).mp hc |>.1 rfl

theorem iterateMarkFailed_count (t : Token) : ∀ (n : Nat) (st : TokenManager),
    (iterateMarkFailed st t n).tokenFailureCount t = st.tokenFailureCount t + n := by
  intro n
  induction n with
  | zero => intro st; rfl
  | succ m ih =>
    intro st
    show (iterateMarkFailed (markTokenFailed st t) t m).tokenFailureCount t = _
    rw [ih (markTokenFailed st t), markTokenFailed_count_self]
    omega

theorem evictAux (t : Token) : ∀ (n : Nat) (st : TokenManager),
    st.tokens.Nodup → 1 ≤ n → 5 ≤ st.tokenFailureCount t + n →
    t ∉ (iterateMarkFailed st t n).tokens := by
  intro n
  induction n with
  | zero => intro st _ h1 _; exact absurd h1 (by decide)
  | succ m ih =>
    intro st hd _ h5
    show t ∉ (iterateMarkFailed (markTokenFailed st t) t m).tokens
    cases Nat.eq_zero_or_pos m with
    | inl h0 =>
      subst h0
      exact markTokenFailed_evicts (by omega) hd
    | inr hm =>
      exact ih (markTokenFailed st t) (markTokenFailed_nodup hd t) hm
        (by rw [markTokenFailed_count_self]; omega)

theorem runOps_never_acquired {t : Token} : ∀ (ops : List PoolOp) (st : TokenManager),
    t ∉ st.tokens → some t ∉ (runOps st ops).2 := by
  intro ops
  induction ops with
  | nil => intro st _; simp [runOps]
  | cons op rest ih =>
    intro st h
    cases op with
    | acquire now =>
      simp only [runOps, List.mem_cons, not_or]
      constructor
      · intro he
        exact h (getToken_mem he.symm)
      · apply ih
        rw [getToken_tokens]
        exact h
    | markFailed u =>
      simp only [runOps]
      exact ih _ (markTokenFailed_not_mem u h)
    | markSuccess u =>
      simp only [runOps]
      exact ih _ h

theorem convertStream_no_done {jparse : String → Option SseData}
    {reqId model : String} {created : Nat} : ∀ {items : List StreamItem},
    reachesTerminal jparse items = false →
    Frag.done ∉ convertStream jparse reqId model created items := by
  intro items
  induction items with
  | nil => intro _; simp [convertStream]
  | cons it rest ih =>
    intro h
    cases it with
    | raiseErr msg => simp [reachesTerminal] at h
    | line l =>
      cases hb : (l == "") with
      | true =>
        simp only [reachesTerminal, hb, if_true] at h
        simp only [convertStream, hb, if_true]
        exact ih h
      | false =>
        cases hp : parseSseLine jparse l with
        | none =>
          simp [reachesTerminal, hb, hp] at h
          simp [convertStream, hb, hp]
          exact ih h
        | some p =>
          cases p with
          | done => simp [reachesTerminal, hb, hp] at h
          | data d =>
            simp [reachesTerminal, hb, hp] at h
            cases hc : d.choices with
            | nil =>
              simp [convertStream, hb, hp, hc]
              exact ih h
            | cons c cs =>
              simp [convertStream, hb, hp, hc]
              exact ih h

theorem convertStream_done_last {jparse : String → Option SseData}
    {reqId model : String} {created : Nat} : ∀ {items : List StreamItem},
    reachesTerminal jparse items = true →
    ∃ pre, convertStream jparse reqId model created items = pre ++ [Frag.done] ∧
      Frag.done ∉ pre := by
  intro items
  induction items with
  | nil => intro h; simp [reachesTerminal] at h
  | cons it rest ih =>
    intro h
    cases it with
    | raiseErr msg =>
      refine ⟨[Frag.chunk (streamErrorChunk reqId created model msg)], rfl, by simp⟩
    | line l =>
      cases hb : (l == "") with
      | true =>
        simp only [reachesTerminal, hb, if_true] at h
        simp only [convertStream, hb, if_true]
        exact ih h
      | false =>
        cases hp : parseSseLine jparse l with
        | none =>
          simp [reachesTerminal, hb, hp] at h
          simp [convertStream, hb, hp]
          exact ih h
        | some p =>
          cases p with
          | done =>
            refine ⟨[], ?_, by simp⟩
            simp [convertStream, hb, hp]
          | data d =>
            simp [reachesTerminal, hb, hp] at h
            obtain ⟨pre, heq, hni⟩ := ih h
            cases hc : d.choices with
            | nil =>
              refine ⟨pre, ?_, hni⟩
              simp [convertStream, hb, hp, hc]
              exact heq
            | cons c cs =>
              refine ⟨Frag.chunk
                { id := reqId, created := created, model := model,
                  deltaRole := (c.delta.getD { role := none, content := none }).role,
                  deltaContent :=
                    some (((c.delta.getD { role := none, content := none }).content).getD ""),
                  finishReason := c.finishReason, usage := d.usage } :: pre, ?_, ?_⟩
              · simp [convertStream, hb, hp, hc]
                exact heq
              · intro hmem
                rcases List.mem_cons.mp hmem with heq2 | hmem2
                · exact Frag.noConfusion heq2
                · exact hni hmem2

theorem convertStream_raise_append {jparse : String → Option SseData}
    {reqId model : String} {created : Nat} : ∀ {items : List StreamItem}
    (msg : String) (rest : List StreamItem),
    reachesTerminal jparse items = false →
    convertStream jparse reqId model created (items ++ StreamItem.raiseErr msg :: rest) =
      convertStream jparse reqId model created items ++
        [Frag.chunk (streamErrorChunk reqId created model msg), Frag.done] := by
  intro items
  induction items with
  | nil => intro msg rest _; rfl
  | cons it tl ih =>
    intro msg rest h
    cases it with
    | raiseErr m => simp [reachesTerminal] at h
    | line l =>
      cases hb : (l == "") with
      | true =>
        simp only [reachesTerminal, hb, if_true] at h
        simp only [List.cons_append, convertStream, hb, if_true]
        exact ih msg rest h
      | false =>
        cases hp : parseSseLine jparse l with
        | none =>
          simp [reachesTerminal, hb, hp] at h
          simp [convertStream, hb, hp]
          exact ih msg rest h
        | some p =>
          cases p with
          | done => simp [reachesTerminal, hb, hp] at h
          | data d =>
            simp [reachesTerminal, hb, hp] at h
            cases hc : d.choices with
            | nil =>
              simp [convertStream, hb, hp, hc]
              exact ih msg rest h
            | cons c cs =>
              simp [convertStream, hb, hp, hc]
              exact ih msg rest h

theorem loopNS_transient_step (be : Backend) (reqId : String) (created now : Nat)
    (model : String) (maxRetries retryDelay r : Nat) (tok : Token) (conv : String)
    (pool : TokenManager) (evs : List Event) (code : Nat) (text : String)
    (hcode : code = 429 ∨ code = 502 ∨ code = 503 ∨ code = 504)
    (hchat : be.chat (maxRetries - (r + 1)) tok = ChatOutcome.status code text)
    (hr : 1 ≤ r) (hmax : r + 1 ≤ maxRetries) :
    loopNS be reqId created now model maxRetries retryDelay (r + 1) tok conv pool evs =
      loopNS be reqId created now model maxRetries retryDelay r tok conv pool
        (evs ++ [Event.chatCall (maxRetries - (r + 1)) tok conv,
                 Event.slept (retryDelay * 2 ^ (maxRetries - (r + 1)))]) := by
  have hnotauth : ¬(code = 401 ∨ code = 403) := by omega
  have hlt : maxRetries - (r + 1) < maxRetries - 1 := by omega
  simp only [loopNS, hchat]
  rw [if_neg hnotauth, if_pos hcode, if_pos hlt]
  simp [List.append_assoc]

theorem loopNS_timeout_step (be : Backend) (reqId : String) (created now : Nat)
    (model : String) (maxRetries retryDelay r : Nat) (tok : Token) (conv : String)
    (pool : TokenManager) (evs : List Event)
    (hchat : be.chat (maxRetries - (r + 1)) tok = ChatOutcome.timeout)
    (hr : 1 ≤ r) (hmax : r + 1 ≤ maxRetries) :
    loopNS be reqId created now model maxRetries retryDelay (r + 1) tok conv pool evs =
      loopNS be reqId created now model maxRetries retryDelay r tok conv pool
        (evs ++ [Event.chatCall (maxRetries - (r + 1)) tok conv,
                 Event.slept retryDelay]) := by
  have hlt : maxRetries - (r + 1) < maxRetries - 1 := by omega
  simp only [loopNS, hchat]
  rw [if_pos hlt]
  simp [List.append_assoc]

theorem loopNS_requestError_step (be : Backend) (reqId : String) (created now : Nat)
    (model : String) (maxRetries retryDelay r : Nat) (tok : Token) (conv : String)
    (pool : TokenManager) (evs : List Event) (emsg : String)
    (hchat : be.chat (maxRetries - (r + 1)) tok = ChatOutcome.requestError emsg)
    (hr : 1 ≤ r) (hmax : r + 1 ≤ maxRetries) :
    loopNS be reqId created now model maxRetries retryDelay (r + 1) tok conv pool evs =
      loopNS be reqId created now model maxRetries retryDelay r tok conv pool
        (evs ++ [Event.chatCall (maxRetries - (r + 1)) tok conv,
                 Event.slept retryDelay]) := by
  have hlt : maxRetries - (r + 1) < maxRetries - 1 := by omega
  simp only [loopNS, hchat]
  rw [if_pos hlt]
  simp [List.append_assoc]

theorem loopNS_auth_rotation_step (be : Backend) (reqId : String) (created now : Nat)
    (model : String) (maxRetries retryDelay r : Nat) (tok tok2 : Token)
    (conv pid cid2 : String) (pool pool2 : TokenManager) (evs sevs : List Event)
    (code : Nat) (text : String)
    (hcode : code = 401 ∨ code = 403)
    (hchat : be.chat (maxRetries - (r + 1)) tok = ChatOutcome.status code text)
    (hget : getToken (markTokenFailed pool tok) now = (some tok2, pool2))
    (hsetup : getProjectAndConversation be tok2 = ((some pid, some cid2), sevs)) :
    loopNS be reqId created now model maxRetries retryDelay (r + 1) tok conv pool evs =
      loopNS be reqId created now model maxRetries retryDelay r tok2 cid2 pool2
        ((evs ++ [Event.chatCall (maxRetries - (r + 1)) tok conv,
                  Event.markedFailed tok ("Auth error: " ++ toString code),
                  Event.acquired (some tok2)]) ++ sevs) := by
  simp only [loopNS, hchat]
  rw [if_pos hcode]
  simp [hget, hsetup, List.append_assoc]

theorem loopNS_all503 (be : Backend) (reqId : String) (created now : Nat)
    (model : String) (maxRetries retryDelay : Nat) (text : String) (tok : Token)
    (conv : String)
    (hchat : ∀ a, be.chat a tok = ChatOutcome.status 503 text) :
    ∀ r, 1 ≤ r → r ≤ maxRetries → ∀ (pool : TokenManager) (evs : List Event),
    ∃ extra,
      loopNS be reqId created now model maxRetries retryDelay r tok conv pool evs =
        (Except.ok (createErrorResponse model ("HTTP " ++ toString 503 ++ ": " ++ text)),
         pool, evs ++ extra) ∧
      ∀ e ∈ extra, ∀ u reason, e ≠ Event.markedFailed u reason := by
  intro r
  induction r with
  | zero => intro h1; exact absurd h1 (by decide)
  | succ m ih =>
    intro _ hmax pool evs
    cases Nat.eq_zero_or_pos m with
    | inl h0 =>
      subst h0
      refine ⟨[Event.chatCall (maxRetries - 1) tok conv], ?_, ?_⟩
      · simp only [loopNS, hchat]
        simp
      · intro e he u reason
        rcases List.mem_singleton.mp he with rfl
        exact Event.noConfusion
    | inr hm =>
      have hstep := loopNS_transient_step be reqId created now model maxRetries retryDelay
        m tok conv pool evs 503 text (by omega) (hchat _) hm (by omega)
      obtain ⟨extra, heq, hne⟩ := ih hm (by omega)
        pool (evs ++ [Event.chatCall (maxRetries - (m + 1)) tok conv,
                      Event.slept (retryDelay * 2 ^ (maxRetries - (m + 1)))])
      refine ⟨[Event.chatCall (maxRetries - (m + 1)) tok conv,
               Event.slept (retryDelay * 2 ^ (maxRetries - (m + 1)))] ++ extra, ?_, ?_⟩
      · rw [hstep, heq]
        simp [List.append_assoc]
      · intro e he u reason
        rcases List.mem_append.mp he with h2 | h2
        · rcases List.mem_cons.mp h2 with rfl | h3
          · exact Event.noConfusion
          · rcases List.mem_singleton.mp h3 with rfl
            exact Event.noConfusion
        · exact hne e h2 u reason

/-- Claim C1: the specification rule says no exception ever escapes the
orchestrator, and in particular an HTTP 401/403 on the streaming chat call
must not propagate an exception out of the returned stream.  The code
violates this: with one pooled credential and a backend whose streaming chat
endpoint answers HTTP 401, `forward_request` returns the live
`stream_generator()` closure, and consuming that stream raises the
`httpx.HTTPStatusError` of `proxy.py:514` straight to the consumer — the
`except` handler at `proxy.py:530` is unreachable because generator creation
runs none of the body.  No error chunk and no terminal marker are produced. -/
theorem claimC1_streaming_auth_exception_escapes :
    (forwardRequest beAuthStream "rid" 7 1 reqStream poolInit1).1 =
      Except.ok (FwdResult.liveStream
        { token := "tokA", conv := "conv-tokA", reqId := "rid", model := "m", created := 7 }) ∧
    (consumeStream beAuthStream
        { token := "tokA", conv := "conv-tokA", reqId := "rid", model := "m", created := 7 }
        poolInit1).1 =
      StreamConsumption.raises [] "Auth error: 401" := by
  exact ⟨rfl, rfl⟩

/-- Claim C2, counterexample: the claim demands exactly one terminal marker
for every consumed backend line sequence, including a sequence that ends
cleanly without a `[DONE]` sentinel.  Consuming the single well-formed data
line below yields one translated chunk and no terminal marker at all, so the
claim as stated is false. -/
theorem claimC2_counterexample :
    convertStream jparseHi "rid" "m" 0 [StreamItem.line "message\tHI\t"] =
      [Frag.chunk { id := "rid", created := 0, model := "m", deltaRole := none,
                    deltaContent := some "hi", finishReason := none, usage := none }] ∧
    Frag.done ∉ convertStream jparseHi "rid" "m" 0 [StreamItem.line "message\tHI\t"] := by
  exact ⟨rfl, by decide⟩

/-- Claim C2, amended: the translated stream contains exactly one terminal
marker, as the final fragment, if and only if the consumed events reach a
terminal cause — a `[DONE]` signal line or an error raised during iteration;
a sequence that ends cleanly without a `[DONE]` sentinel produces no terminal
marker.  When an error interrupts iteration before any terminal cause, the
output is the output for the consumed prefix followed by exactly one
synthetic error chunk with `finish_reason = "error"` and the terminal
marker. -/
theorem claimC2_amended :
    (∀ (jparse : String → Option SseData) (reqId model : String) (created : Nat)
        (items : List StreamItem), reachesTerminal jparse items = false →
      Frag.done ∉ convertStream jparse reqId model created items) ∧
    (∀ (jparse : String → Option SseData) (reqId model : String) (created : Nat)
        (items : List StreamItem), reachesTerminal jparse items = true →
      ∃ pre, convertStream jparse reqId model created items = pre ++ [Frag.done] ∧
        Frag.done ∉ pre) ∧
    (∀ (jparse : String → Option SseData) (reqId model : String) (created : Nat)
        (items : List StreamItem) (msg : String) (rest : List StreamItem),
      reachesTerminal jparse items = false →
      convertStream jparse reqId model created (items ++ StreamItem.raiseErr msg :: rest) =
        convertStream jparse reqId model created items ++
          [Frag.chunk (streamErrorChunk reqId created model msg), Frag.done]) :=
  ⟨fun _ _ _ _ _ h => convertStream_no_done h,
   fun _ _ _ _ _ h => convertStream_done_last h,
   fun _ _ _ _ _ msg rest h => convertStream_raise_append msg rest h⟩

/-- Claim C2, witness: the amended theorem applied to three concrete runs —
a data line without a terminal (no marker), a `[DONE]` line (marker last),
and an unparseable line followed by a transport error (error chunk plus
marker appended). -/
theorem claimC2_witness :
    (reachesTerminal jparseHi [StreamItem.line "message\tHI\t"] = false ∧
      Frag.done ∉ convertStream jparseHi "rid" "m" 0 [StreamItem.line "message\tHI\t"]) ∧
    (reachesTerminal jparseHi [StreamItem.line "message\t[DONE]\t"] = true ∧
      ∃ pre, convertStream jparseHi "rid" "m" 0 [StreamItem.line "message\t[DONE]\t"] =
        pre ++ [Frag.done] ∧ Frag.done ∉ pre) ∧
    (reachesTerminal jparseHi [StreamItem.line "junk"] = false ∧
      convertStream jparseHi "rid" "m" 0
          ([StreamItem.line "junk"] ++ StreamItem.raiseErr "boom" :: []) =
        convertStream jparseHi "rid" "m" 0 [StreamItem.line "junk"] ++
          [Frag.chunk (streamErrorChunk "rid" 0 "m" "boom"), Frag.done]) :=
  ⟨⟨by decide, claimC2_amended.1 jparseHi "rid" "m" 0 _ (by decide)⟩,
   ⟨by decide, claimC2_amended.2.1 jparseHi "rid" "m" 0 _ (by decide)⟩,
   ⟨by decide, claimC2_amended.2.2 jparseHi "rid" "m" 0 _ "boom" [] (by decide)⟩⟩

/-- Claim C3, counterexample: with the chat call answering HTTP 503 on every
one of the three attempts, the orchestrator does return an error result with
`finish_reason = "error"` and zero usage, but the last transient attempt
falls through to the generic HTTP-error return at `proxy.py:603-608`, which
returns before the post-loop marking at `proxy.py:629-630`: no
`mark_token_failed` call happens at all, so the claimed marking with reason
"max retries exceeded" is false. -/
theorem claimC3_counterexample :
    (forwardRequest be503 "rid" 7 1 reqNS poolInit1).1 =
      Except.ok (FwdResult.completion (createErrorResponse "m"
        ("HTTP " ++ toString 503 ++ ": " ++ "Service Unavailable"))) ∧
    ((forwardRequest be503 "rid" 7 1 reqNS poolInit1).2.2.filter
      (fun e => match e with | Event.markedFailed _ _ => true | _ => false)) = [] := by
  exact ⟨rfl, rfl⟩

/-- Claim C3, amended: if the non-streaming chat call returns HTTP 503 on
every attempt, the retry loop ends by returning the error response built
from the HTTP status — `finish_reason = "error"` and all-zero usage — with
the pool state unchanged: the credential is NOT marked failed, and no
"max retries exceeded" marking occurs (the extra trace contains no
`markedFailed` event). -/
theorem claimC3_amended (be : Backend) (reqId : String) (created now : Nat)
    (model text : String) (maxRetries retryDelay : Nat) (tok : Token) (conv : String)
    (hchat : ∀ a, be.chat a tok = ChatOutcome.status 503 text) :
    ∀ r, 1 ≤ r → r ≤ maxRetries → ∀ (pool : TokenManager) (evs : List Event),
    ∃ extra,
      loopNS be reqId created now model maxRetries retryDelay r tok conv pool evs =
        (Except.ok (createErrorResponse model ("HTTP " ++ toString 503 ++ ": " ++ text)),
         pool, evs ++ extra) ∧
      (∀ e ∈ extra, ∀ u reason, e ≠ Event.markedFailed u reason) ∧
      (createErrorResponse model ("HTTP " ++ toString 503 ++ ": " ++ text)).finishReason =
        "error" ∧
      (createErrorResponse model ("HTTP " ++ toString 503 ++ ": " ++ text)).promptTokens = 0 ∧
      (createErrorResponse model ("HTTP " ++ toString 503 ++ ": " ++ text)).completionTokens
        = 0 ∧
      (createErrorResponse model ("HTTP " ++ toString 503 ++ ": " ++ text)).totalTokens = 0 := by
  intro r h1 h2 pool evs
  obtain ⟨extra, heq, hne⟩ := loopNS_all503 be reqId created now model maxRetries retryDelay
    text tok conv hchat r h1 h2 pool evs
  exact ⟨extra, heq, hne, rfl, rfl, rfl, rfl⟩

/-- Claim C3, witness: the amended theorem applied to the concrete all-503
backend with the default three attempts. -/
theorem claimC3_witness :
    (∀ a, be503.chat a "tokA" = ChatOutcome.status 503 "Service Unavailable") ∧
    (∃ extra,
      loopNS be503 "rid" 7 1 "m" 3 1 3 "tokA" "conv-tokA" poolInit1 [] =
        (Except.ok (createErrorResponse "m"
          ("HTTP " ++ toString 503 ++ ": " ++ "Service Unavailable")),
         poolInit1, [] ++ extra) ∧
      (∀ e ∈ extra, ∀ u reason, e ≠ Event.markedFailed u reason) ∧
      (createErrorResponse "m"
        ("HTTP " ++ toString 503 ++ ": " ++ "Service Unavailable")).finishReason = "error" ∧
      (createErrorResponse "m"
        ("HTTP " ++ toString 503 ++ ": " ++ "Service Unavailable")).promptTokens = 0 ∧
      (createErrorResponse "m"
        ("HTTP " ++ toString 503 ++ ": " ++ "Service Unavailable")).completionTokens = 0 ∧
      (createErrorResponse "m"
        ("HTTP " ++ toString 503 ++ ": " ++ "Service Unavailable")).totalTokens = 0) :=
  ⟨fun _ => rfl,
   claimC3_amended be503 "rid" 7 1 "m" "Service Unavailable" 3 1 "tokA" "conv-tokA"
     (fun _ => rfl) 3 (by decide) (by decide) poolInit1 []⟩

/-- Claim C4, counterexample: in the 401, 401, 200 scenario with three
credentials, two credential rotations do occur (two auth failure markings),
but the flattened user message is sent exactly once — to the first
conversation, before the loop — and never re-sent to the conversations
created for the rotated-to credentials: the rotation code at
`proxy.py:580-593` rebuilds project and conversation but issues no
`send_message` call, so the claimed redo of step 6 is false. -/
theorem claimC4_counterexample :
    ((forwardRequest be401 "rid" 7 1 reqNS poolInit3).2.2.filter
      (fun e => match e with | Event.sentMessage _ _ _ => true | _ => false)) =
        [Event.sentMessage "tokA" "conv-tokA" "hi"] ∧
    ((forwardRequest be401 "rid" 7 1 reqNS poolInit3).2.2.filter
      (fun e => match e with | Event.markedFailed _ _ => true | _ => false)) =
        [Event.markedFailed "tokA" "Auth error: 401",
         Event.markedFailed "tokB" "Auth error: 401"] := by
  exact ⟨rfl, rfl⟩

/-- Claim C4, amended: on HTTP 401/403 the orchestrator marks the current
credential failed, acquires a credential from the pool, and redoes project
resolution, stale-conversation purge, and conversation creation against it —
but does NOT re-send the flattened user message (session setup never emits a
send event) — before the next chat-call attempt of the same loop.  In the
401, 401, 200 scenario with `max_retries = 3`, exactly two rotations occur,
the final result is a success marked on the credential that succeeded, and
the only message send in the whole trace is the initial one. -/
theorem claimC4_amended :
    (∀ (be : Backend) (reqId : String) (created now : Nat) (model : String)
        (maxRetries retryDelay r : Nat) (tok tok2 : Token) (conv pid cid2 : String)
        (pool pool2 : TokenManager) (evs sevs : List Event) (code : Nat) (text : String),
      (code = 401 ∨ code = 403) →
      be.chat (maxRetries - (r + 1)) tok = ChatOutcome.status code text →
      getToken (markTokenFailed pool tok) now = (some tok2, pool2) →
      getProjectAndConversation be tok2 = ((some pid, some cid2), sevs) →
      loopNS be reqId created now model maxRetries retryDelay (r + 1) tok conv pool evs =
        loopNS be reqId created now model maxRetries retryDelay r tok2 cid2 pool2
          ((evs ++ [Event.chatCall (maxRetries - (r + 1)) tok conv,
                    Event.markedFailed tok ("Auth error: " ++ toString code),
                    Event.acquired (some tok2)]) ++ sevs)) ∧
    (∀ (be : Backend) (t : Token), ∀ e ∈ (getProjectAndConversation be t).2,
      ∀ (u : Token) (c m : String), e ≠ Event.sentMessage u c m) ∧
    ((forwardRequest be401 "rid" 7 1 reqNS poolInit3).1 =
      Except.ok (FwdResult.completion
        { id := some "rid", model := "m", role := "assistant", content := "hello there",
          finishReason := "stop", promptTokens := 50, completionTokens := 2,
          totalTokens := 52 }) ∧
     (forwardRequest be401 "rid" 7 1 reqNS poolInit3).2.2 =
      [Event.acquired (some "tokA"), Event.gotProjects "tokA",
       Event.pickedProject "tokA" "p1", Event.purgedConversations "tokA" "p1",
       Event.createdConversation "tokA" (some "conv-tokA"),
       Event.sentMessage "tokA" "conv-tokA" "hi",
       Event.chatCall 0 "tokA" "conv-tokA",
       Event.markedFailed "tokA" "Auth error: 401",
       Event.acquired (some "tokB"), Event.gotProjects "tokB",
       Event.pickedProject "tokB" "p1", Event.purgedConversations "tokB" "p1",
       Event.createdConversation "tokB" (some "conv-tokB"),
       Event.chatCall 1 "tokB" "conv-tokB",
       Event.markedFailed "tokB" "Auth error: 401",
       Event.acquired (some "tokC"), Event.gotProjects "tokC",
       Event.pickedProject "tokC" "p1", Event.purgedConversations "tokC" "p1",
       Event.createdConversation "tokC" (some "conv-tokC"),
       Event.chatCall 2 "tokC" "conv-tokC",
       Event.markedSuccess "tokC"] ∧
     (forwardRequest be401 "rid" 7 1 reqNS poolInit3).2.1.failedTokens =
       ["tokA", "tokB"] ∧
     (forwardRequest be401 "rid" 7 1 reqNS poolInit3).2.1.tokenFailureCount "tokC" = 0) := by
  refine ⟨?_, ?_, rfl, rfl, rfl, rfl⟩
  · intro be reqId created now model maxRetries retryDelay r tok tok2 conv pid cid2
      pool pool2 evs sevs code text hcode hchat hget hsetup
    exact loopNS_auth_rotation_step be reqId created now model maxRetries retryDelay r
      tok tok2 conv pid cid2 pool pool2 evs sevs code text hcode hchat hget hsetup
  · intro be t e he u c m
    cases hbp : be.projects t with
    | some ps =>
      cases ps with
      | cons p ps2 =>
        cases hcc : be.createConv t (be.choice (p :: ps2)) with
        | some cid =>
          simp [getProjectAndConversation, hbp, hcc] at he
          rcases he with rfl | rfl | rfl | rfl <;> simp
        | none =>
          simp [getProjectAndConversation, hbp, hcc] at he
          rcases he with rfl | rfl | rfl | rfl <;> simp
      | nil =>
        cases hcp : be.createProject t with
        | some pid2 =>
          cases hcc : be.createConv t pid2 with
          | some cid =>
            simp [getProjectAndConversation, hbp, hcp, hcc] at he
            rcases he with rfl | rfl | rfl | rfl <;> simp
          | none =>
            simp [getProjectAndConversation, hbp, hcp, hcc] at he
            rcases he with rfl | rfl | rfl | rfl <;> simp
        | none =>
          simp [getProjectAndConversation, hbp, hcp] at he
          rcases he with rfl | rfl <;> simp
    | none =>
      cases hcp : be.createProject t with
      | some pid2 =>
        cases hcc : be.createConv t pid2 with
        | some cid =>
          simp [getProjectAndConversation, hbp, hcp, hcc] at he
          rcases he with rfl | rfl | rfl | rfl <;> simp
        | none =>
          simp [getProjectAndConversation, hbp, hcp, hcc] at he
          rcases he with rfl | rfl | rfl | rfl <;> simp
      | none =>
        simp [getProjectAndConversation, hbp, hcp] at he
        rcases he with rfl | rfl <;> simp

/-- Claim C4, witness: the amended rotation equation applied to the concrete
401 scenario at attempt 0 (three attempts remaining), plus the no-send
property of session setup at a concrete event. -/
theorem claimC4_witness :
    (be401.chat (3 - (2 + 1)) "tokA" = ChatOutcome.status 401 "Unauthorized") ∧
    (getProjectAndConversation be401 "tokB" =
      ((some "p1", some "conv-tokB"),
       [Event.gotProjects "tokB", Event.pickedProject "tokB" "p1",
        Event.purgedConversations "tokB" "p1",
        Event.createdConversation "tokB" (some "conv-tokB")])) ∧
    (loopNS be401 "rid" 7 1 "m" 3 1 (2 + 1) "tokA" "conv-tokA"
        (getToken poolInit3 1).2 [] =
      loopNS be401 "rid" 7 1 "m" 3 1 2 "tokB" "conv-tokB"
        (getToken (markTokenFailed (getToken poolInit3 1).2 "tokA") 1).2
        (([] ++ [Event.chatCall (3 - (2 + 1)) "tokA" "conv-tokA",
                 Event.markedFailed "tokA" ("Auth error: " ++ toString 401),
                 Event.acquired (some "tokB")]) ++
         [Event.gotProjects "tokB", Event.pickedProject "tokB" "p1",
          Event.purgedConversations "tokB" "p1",
          Event.createdConversation "tokB" (some "conv-tokB")])) ∧
    (Event.gotProjects "tokA" ∈ (getProjectAndConversation be401 "tokA").2 ∧
     ∀ (u : Token) (c m : String),
       Event.gotProjects "tokA" ≠ Event.sentMessage u c m) := by
  refine ⟨rfl, rfl, ?_, ⟨by decide, ?_⟩⟩
  · have hget : getToken (markTokenFailed (getToken poolInit3 1).2 "tokA") 1 =
        (some "tokB", (getToken (markTokenFailed (getToken poolInit3 1).2 "tokA") 1).2) := by
      have h1 : (getToken (markTokenFailed (getToken poolInit3 1).2 "tokA") 1).1 =
          some "tokB" := rfl
      calc getToken (markTokenFailed (getToken poolInit3 1).2 "tokA") 1 =
            ((getToken (markTokenFailed (getToken poolInit3 1).2 "tokA") 1).1,
             (getToken (markTokenFailed (getToken poolInit3 1).2 "tokA") 1).2) := rfl
        _ = (some "tokB",
             (getToken (markTokenFailed (getToken poolInit3 1).2 "tokA") 1).2) := by rw [h1]
    exact claimC4_amended.1 be401 "rid" 7 1 "m" 3 1 2 "tokA" "tokB" "conv-tokA" "p1"
      "conv-tokB" (getToken poolInit3 1).2 _ [] _ 401 "Unauthorized" (Or.inl rfl) rfl hget rfl
  · exact claimC4_amended.2.1 be401 "tokA" (Event.gotProjects "tokA") (by decide)

/-- Claim C5, counterexample: with the chat call timing out on every attempt
and the default `retry_delay = 1`, the two backoff sleeps of the run are both
1 second — the trace contains no `retry_delay * 2 ** 1 = 2` second sleep —
so the claimed exponential backoff for transport-level timeouts is false
(the code sleeps the constant `retry_delay`, `proxy.py:610-622`). -/
theorem claimC5_counterexample :
    ((forwardRequest beTimeout "rid" 7 1 reqNS poolInit1).2.2.filter
      (fun e => match e with | Event.slept _ => true | _ => false)) =
        [Event.slept 1, Event.slept 1] ∧
    Event.slept (settingsRetryDelay * 2 ^ 1) ∉
      (forwardRequest beTimeout "rid" 7 1 reqNS poolInit1).2.2 := by
  exact ⟨rfl, by decide⟩

/-- Claim C5, amended: when attempts remain, an HTTP 429/502/503/504 answer
makes the loop sleep `retry_delay * 2 ** attempt` seconds and retry with the
same credential, conversation, and pool state; a transport-level timeout or
connection error also retries with everything unchanged, but after the
constant `retry_delay` — not the exponential backoff the claim states. -/
theorem claimC5_amended :
    (∀ (be : Backend) (reqId : String) (created now : Nat) (model : String)
        (maxRetries retryDelay r : Nat) (tok : Token) (conv : String)
        (pool : TokenManager) (evs : List Event) (code : Nat) (text : String),
      (code = 429 ∨ code = 502 ∨ code = 503 ∨ code = 504) →
      be.chat (maxRetries - (r + 1)) tok = ChatOutcome.status code text →
      1 ≤ r → r + 1 ≤ maxRetries →
      loopNS be reqId created now model maxRetries retryDelay (r + 1) tok conv pool evs =
        loopNS be reqId created now model maxRetries retryDelay r tok conv pool
          (evs ++ [Event.chatCall (maxRetries - (r + 1)) tok conv,
                   Event.slept (retryDelay * 2 ^ (maxRetries - (r + 1)))])) ∧
    (∀ (be : Backend) (reqId : String) (created now : Nat) (model : String)
        (maxRetries retryDelay r : Nat) (tok : Token) (conv : String)
        (pool : TokenManager) (evs : List Event),
      be.chat (maxRetries - (r + 1)) tok = ChatOutcome.timeout →
      1 ≤ r → r + 1 ≤ maxRetries →
      loopNS be reqId created now model maxRetries retryDelay (r + 1) tok conv pool evs =
        loopNS be reqId created now model maxRetries retryDelay r tok conv pool
          (evs ++ [Event.chatCall (maxRetries - (r + 1)) tok conv,
                   Event.slept retryDelay])) ∧
    (∀ (be : Backend) (reqId : String) (created now : Nat) (model : String)
        (maxRetries retryDelay r : Nat) (tok : Token) (conv : String)
        (pool : TokenManager) (evs : List Event) (emsg : String),
      be.chat (maxRetries - (r + 1)) tok = ChatOutcome.requestError emsg →
      1 ≤ r → r + 1 ≤ maxRetries →
      loopNS be reqId created now model maxRetries retryDelay (r + 1) tok conv pool evs =
        loopNS be reqId created now model maxRetries retryDelay r tok conv pool
          (evs ++ [Event.chatCall (maxRetries - (r + 1)) tok conv,
                   Event.slept retryDelay])) :=
  ⟨fun be reqId created now model maxR rd r tok conv pool evs code text hc hch h1 h2 =>
    loopNS_transient_step be reqId created now model maxR rd r tok conv pool evs code text
      hc hch h1 h2,
   fun be reqId created now model maxR rd r tok conv pool evs hch h1 h2 =>
    loopNS_timeout_step be reqId created now model maxR rd r tok conv pool evs hch h1 h2,
   fun be reqId created now model maxR rd r tok conv pool evs emsg hch h1 h2 =>
    loopNS_requestError_step be reqId created now model maxR rd r tok conv pool evs emsg
      hch h1 h2⟩

/-- Claim C5, witness: the amended equations applied to concrete runs — an
HTTP 503 at attempt 1 with two attempts remaining (sleeps 1 * 2 ** 1), a
timeout at the same point (sleeps the constant 1), and a connection error at
the same point (sleeps the constant 1). -/
theorem claimC5_witness :
    (be503.chat (3 - (1 + 1)) "tokA" = ChatOutcome.status 503 "Service Unavailable") ∧
    (loopNS be503 "rid" 7 1 "m" 3 1 (1 + 1) "tokA" "cv" poolInit1 [] =
      loopNS be503 "rid" 7 1 "m" 3 1 1 "tokA" "cv" poolInit1
        ([] ++ [Event.chatCall (3 - (1 + 1)) "tokA" "cv",
                Event.slept (1 * 2 ^ (3 - (1 + 1)))])) ∧
    (beTimeout.chat (3 - (1 + 1)) "tokA" = ChatOutcome.timeout) ∧
    (loopNS beTimeout "rid" 7 1 "m" 3 1 (1 + 1) "tokA" "cv" poolInit1 [] =
      loopNS beTimeout "rid" 7 1 "m" 3 1 1 "tokA" "cv" poolInit1
        ([] ++ [Event.chatCall (3 - (1 + 1)) "tokA" "cv", Event.slept 1])) ∧
    (loopNS { baseBackend with chat := fun _ _ => ChatOutcome.requestError "boom" }
        "rid" 7 1 "m" 3 1 (1 + 1) "tokA" "cv" poolInit1 [] =
      loopNS { baseBackend with chat := fun _ _ => ChatOutcome.requestError "boom" }
        "rid" 7 1 "m" 3 1 1 "tokA" "cv" poolInit1
        ([] ++ [Event.chatCall (3 - (1 + 1)) "tokA" "cv", Event.slept 1])) :=
  ⟨rfl,
   claimC5_amended.1 be503 "rid" 7 1 "m" 3 1 1 "tokA" "cv" poolInit1 [] 503
     "Service Unavailable" (by decide) rfl (by decide) (by decide),
   rfl,
   claimC5_amended.2.1 beTimeout "rid" 7 1 "m" 3 1 1 "tokA" "cv" poolInit1 [] rfl
     (by decide) (by decide),
   claimC5_amended.2.2 { baseBackend with chat := fun _ _ => ChatOutcome.requestError "boom" }
     "rid" 7 1 "m" 3 1 1 "tokA" "cv" poolInit1 [] "boom" rfl (by decide) (by decide)⟩

/-- Claim C6, counterexample: five `mark_token_failed` calls on the single
pool credential with no intervening `mark_token_success` — but with one
`get_token` call between the third and fourth — leave the credential in the
pool and the next acquire returns it: the wholesale reset inside `get_token`
(`token_manager.py:33-37`) cleared the failure counter after the third call,
so the counter never reaches 5 and no eviction happens, refuting the claim as
stated. -/
theorem claimC6_counterexample :
    "a" ∈ (iterateMarkFailed
      (getToken (iterateMarkFailed (TokenManager.init ["a"]) "a" 3) 5).2 "a" 2).tokens ∧
    (getToken (iterateMarkFailed
      (getToken (iterateMarkFailed (TokenManager.init ["a"]) "a" 3) 5).2 "a" 2) 17).1 =
      some "a" := by
  exact ⟨by decide, rfl⟩

/-- Claim C6, amended: after five consecutive `markFailed` calls on the same
credential (no other pool operation in between; the pool list assumed free of
duplicates), the credential is removed from the pool list, and no subsequent
sequence of acquire, markFailed, and markSuccess operations — including
acquire calls that take the wholesale reset or run the time-based cleanup —
ever makes acquire return it. -/
theorem claimC6_amended (st : TokenManager) (t : Token) (hd : st.tokens.Nodup) :
    t ∉ (iterateMarkFailed st t 5).tokens ∧
    ∀ ops : List PoolOp, some t ∉ (runOps (iterateMarkFailed st t 5) ops).2 := by
  have h5 : t ∉ (iterateMarkFailed st t 5).tokens :=
    evictAux t 5 st hd (by decide) (by omega)
  exact ⟨h5, fun ops => runOps_never_acquired ops _ h5⟩

/-- Claim C6, witness: a two-credential pool; after five consecutive failure
markings the credential is gone, and a concrete later operation sequence —
an acquire, a failure marking of the other credential, and an acquire far
enough in the future to trigger the time-based cleanup — never returns it. -/
theorem claimC6_witness :
    (TokenManager.init ["x", "y"]).tokens.Nodup ∧
    "x" ∉ (iterateMarkFailed (TokenManager.init ["x", "y"]) "x" 5).tokens ∧
    some "x" ∉ (runOps (iterateMarkFailed (TokenManager.init ["x", "y"]) "x" 5)
      [PoolOp.acquire 0, PoolOp.markFailed "y", PoolOp.acquire 2000]).2 :=
  ⟨by decide,
   (claimC6_amended (TokenManager.init ["x", "y"]) "x" (by decide)).1,
   (claimC6_amended (TokenManager.init ["x", "y"]) "x" (by decide)).2
     [PoolOp.acquire 0, PoolOp.markFailed "y", PoolOp.acquire 2000]⟩

/-- Claim C7, counterexample: a two-credential pool with both credentials in
the failed set, where credential "a" is eligible for the ten-minute
time-based restoration.  The next acquire does return a credential, but the
cleanup restores "a" first, the available subset becomes non-empty, and the
wholesale reset never fires: afterwards the failed set still holds "b" and
the failure counter of "b" is untouched, refuting the claimed clearing of
the entire failed set and counter reset. -/
theorem claimC7_counterexample :
    (stC7.tokens.all (fun t => stC7.failedTokens.contains t)) = true ∧
    stC7.tokens ≠ [] ∧
    (getToken stC7 1000).1 = some "a" ∧
    (getToken stC7 1000).2.failedTokens = ["b"] ∧
    (getToken stC7 1000).2.tokenFailureCount "b" = 1 := by
  exact ⟨by decide, by decide, rfl, rfl, rfl⟩

/-- Claim C7, amended: acquire reports pool exhaustion (returns no
credential) if and only if the credential list itself is empty; and when the
list is non-empty and, after the time-based cleanup, every listed credential
is still in the failed set, acquire takes the wholesale-reset branch: it
returns a credential, the resulting failed set is empty, and every failure
counter is zero.  (If the cleanup restores some credential, acquire still
returns a credential but no wholesale clearing happens.) -/
theorem claimC7_amended :
    (∀ (st : TokenManager) (now : Nat), (getToken st now).1 = none ↔ st.tokens = []) ∧
    (∀ (st : TokenManager) (now : Nat), st.tokens ≠ [] → availAfterCleanup st now = [] →
      (getToken st now).1.isSome = true ∧
      (getToken st now).2.failedTokens = [] ∧
      ∀ u, (getToken st now).2.tokenFailureCount u = 0) :=
  ⟨fun st now => getToken_none_iff st now,
   fun st now hne ha => getToken_reset_state st now hne ha⟩

/-- Claim C7, witness: the exhaustion equivalence applied to the empty pool
and the reset branch applied to a concrete fully-failed pool. -/
theorem claimC7_witness :
    ((getToken (TokenManager.init []) 0).1 = none ↔ (TokenManager.init []).tokens = []) ∧
    (stReset.tokens ≠ [] ∧ availAfterCleanup stReset 0 = []) ∧
    ((getToken stReset 0).1.isSome = true ∧
     (getToken stReset 0).2.failedTokens = [] ∧
     ∀ u, (getToken stReset 0).2.tokenFailureCount u = 0) :=
  ⟨claimC7_amended.1 (TokenManager.init []) 0,
   ⟨by decide, by decide⟩,
   claimC7_amended.2 stReset 0 (by decide) (by decide)⟩

/-- Claim C8: when the available subset (pool minus failed set, after the
time-based cleanup) is non-empty, acquire returns the available credential
with the oldest last-used key — never-used credentials carrying the minimal
key, so that under a positive clock an available never-used credential forces
the selection to be never-used — with ties broken deterministically by pool
order (the returned credential is the first available one attaining its key),
and the returned state records the current clock as the last-used time of the
selected credential. -/
theorem claimC8_lru (st : TokenManager) (now : Nat)
    (h : availAfterCleanup st now ≠ []) :
    ∃ tok,
      getToken st now = (some tok,
        { cleanupFailedTokens st now with
          tokenLastUsed :=
            Function.update (cleanupFailedTokens st now).tokenLastUsed tok (some now) }) ∧
      tok ∈ availAfterCleanup st now ∧
      (∀ u ∈ availAfterCleanup st now,
        lastUsedKey (cleanupFailedTokens st now) tok ≤
          lastUsedKey (cleanupFailedTokens st now) u) ∧
      (availAfterCleanup st now).find?
        (fun u => lastUsedKey (cleanupFailedTokens st now) u ==
          lastUsedKey (cleanupFailedTokens st now) tok) = some tok ∧
      ((∀ u t0, (cleanupFailedTokens st now).tokenLastUsed u = some t0 → 0 < t0) →
        (∃ u ∈ availAfterCleanup st now,
          (cleanupFailedTokens st now).tokenLastUsed u = none) →
        (cleanupFailedTokens st now).tokenLastUsed tok = none) := by
  have hne : st.tokens ≠ [] := by
    intro hc
    apply h
    show ((cleanupFailedTokens st now).tokens.filter
      (fun t => !((cleanupFailedTokens st now).failedTokens.contains t))) = []
    have hct : (cleanupFailedTokens st now).tokens = st.tokens := rfl
    rw [hct, hc]
    rfl
  have he : st.tokens.isEmpty = false := by
    cases hl : st.tokens with
    | nil => exact absurd hl hne
    | cons a l => rfl
  have ha0 : ((cleanupFailedTokens st now).tokens.filter
      (fun t => !((cleanupFailedTokens st now).failedTokens.contains t))).isEmpty = false := by
    show (availAfterCleanup st now).isEmpty = false
    cases hl : availAfterCleanup st now with
    | nil => exact absurd hl h
    | cons a l => rfl
  obtain ⟨hmem, hle, hfind⟩ := getLeastUsedToken_spec (cleanupFailedTokens st now) h
  refine ⟨getLeastUsedToken (cleanupFailedTokens st now) (availAfterCleanup st now),
    ?_, hmem, hle, hfind, ?_⟩
  · unfold getToken
    rw [if_neg (by rw [he]; exact Bool.false_ne_true)]
    rw [if_neg (by rw [ha0]; exact Bool.false_ne_true)]
    rfl
  · intro hpos hnone
    obtain ⟨u, hu, hun⟩ := hnone
    have hu0 : lastUsedKey (cleanupFailedTokens st now) u = 0 := by
      simp [lastUsedKey, hun]
    have hk := hle u hu
    rw [hu0] at hk
    have hk0 : lastUsedKey (cleanupFailedTokens st now)
        (getLeastUsedToken (cleanupFailedTokens st now) (availAfterCleanup st now)) = 0 :=
      Nat.le_zero.mp hk
    cases hcase : (cleanupFailedTokens st now).tokenLastUsed
        (getLeastUsedToken (cleanupFailedTokens st now) (availAfterCleanup st now)) with
    | none => rfl
    | some v =>
      have hv : v = 0 := by
        have : lastUsedKey (cleanupFailedTokens st now)
            (getLeastUsedToken (cleanupFailedTokens st now) (availAfterCleanup st now)) = v := by
          simp [lastUsedKey, hcase]
        rw [this] at hk0
        exact hk0
      have := hpos _ v hcase
      rw [hv] at this
      exact absurd this (by decide)

/-- Claim C8, witness: a pool with a never-used credential "a" and a
credential "b" last used at time 5; at clock 7 acquire must select "a". -/
theorem claimC8_witness :
    availAfterCleanup stC8 7 ≠ [] ∧
    (∃ tok,
      getToken stC8 7 = (some tok,
        { cleanupFailedTokens stC8 7 with
          tokenLastUsed :=
            Function.update (cleanupFailedTokens stC8 7).tokenLastUsed tok (some 7) }) ∧
      tok ∈ availAfterCleanup stC8 7 ∧
      (∀ u ∈ availAfterCleanup stC8 7,
        lastUsedKey (cleanupFailedTokens stC8 7) tok ≤
          lastUsedKey (cleanupFailedTokens stC8 7) u) ∧
      (availAfterCleanup stC8 7).find?
        (fun u => lastUsedKey (cleanupFailedTokens stC8 7) u ==
          lastUsedKey (cleanupFailedTokens stC8 7) tok) = some tok ∧
      ((∀ u t0, (cleanupFailedTokens stC8 7).tokenLastUsed u = some t0 → 0 < t0) →
        (∃ u ∈ availAfterCleanup stC8 7,
          (cleanupFailedTokens stC8 7).tokenLastUsed u = none) →
        (cleanupFailedTokens stC8 7).tokenLastUsed tok = none)) :=
  ⟨by decide, claimC8_lru stC8 7 (by decide)⟩

/-- Claim C9: the time-based cleanup removes an eligible credential from the
failed set while leaving every failure counter unchanged; with the counter
thus preserved at `c`, any `k` further consecutive failure markings with
`c + k ≥ 5` evict the credential — in particular fewer than five suffice when
`c > 0`; and the only single pool operations that take a nonzero failure
counter to zero are a success marking of that credential and an acquire whose
wholesale reset fires. -/
theorem claimC9_frame :
    (∀ (st : TokenManager) (now : Nat),
      (cleanupFailedTokens st now).tokenFailureCount = st.tokenFailureCount ∧
      ∀ t, t ∈ st.failedTokens → shouldRestore st now t = true →
        t ∉ (cleanupFailedTokens st now).failedTokens) ∧
    (∀ (st : TokenManager) (t : Token) (k : Nat), st.tokens.Nodup → 1 ≤ k →
      5 ≤ st.tokenFailureCount t + k → t ∉ (iterateMarkFailed st t k).tokens) ∧
    (∀ (st : TokenManager) (op : PoolOp) (t : Token),
      st.tokenFailureCount t ≠ 0 → (applyOpState st op).tokenFailureCount t = 0 →
      op = PoolOp.markSuccess t ∨
        ∃ now, op = PoolOp.acquire now ∧ resetFires st now = true) := by
  refine ⟨?_, ?_, ?_⟩
  · intro st now
    refine ⟨rfl, ?_⟩
    intro t _ hres hc
    have hpred := (List.mem_filter.mp hc).2
    rw [hres] at hpred
    exact absurd hpred (by decide)
  · intro st t k hd h1 h5
    exact evictAux t k st hd h1 h5
  · intro st op t h0 h1
    cases op with
    | markFailed u =>
      by_cases htu : t = u
      · subst htu
        rw [show (applyOpState st (PoolOp.markFailed t)).tokenFailureCount t =
            st.tokenFailureCount t + 1 from markTokenFailed_count_self st t] at h1
        exact absurd h1 (Nat.succ_ne_zero _)
      · have : (applyOpState st (PoolOp.markFailed u)).tokenFailureCount t =
            st.tokenFailureCount t := by
          show (markTokenFailed st u).tokenFailureCount t = st.tokenFailureCount t
          simp [markTokenFailed, Function.update_noteq htu]
        rw [this] at h1
        exact absurd h1 h0
    | markSuccess u =>
      by_cases htu : t = u
      · subst htu
        exact Or.inl rfl
      · have : (applyOpState st (PoolOp.markSuccess u)).tokenFailureCount t =
            st.tokenFailureCount t := by
          show (markTokenSuccess st u).tokenFailureCount t = st.tokenFailureCount t
          simp [markTokenSuccess, Function.update_noteq htu]
        rw [this] at h1
        exact absurd h1 h0
    | acquire now =>
      have hgc := congrFun (getToken_count st now) t
      cases hres : resetFires st now with
      | true =>
        exact Or.inr ⟨now, rfl, hres⟩
      | false =>
        rw [hres] at hgc
        rw [if_neg Bool.false_ne_true] at hgc
        have : (applyOpState st (PoolOp.acquire now)).tokenFailureCount t =
            st.tokenFailureCount t := hgc
        rw [this] at h1
        exact absurd h1 h0

/-- Claim C9, witness: the cleanup instance on a concrete fully-failed pool
with a stale credential (count preserved, credential restored); the eviction
instance with a prior count of three and two further markings; and the
counter-reset instance at a wholesale-reset acquire. -/
theorem claimC9_witness :
    ((cleanupFailedTokens stC7 1000).tokenFailureCount = stC7.tokenFailureCount ∧
     ("a" ∈ stC7.failedTokens ∧ shouldRestore stC7 1000 "a" = true ∧
      "a" ∉ (cleanupFailedTokens stC7 1000).failedTokens)) ∧
    (stReset.tokens.Nodup ∧ 5 ≤ stReset.tokenFailureCount "a" + 2 ∧
     "a" ∉ (iterateMarkFailed stReset "a" 2).tokens) ∧
    (stReset.tokenFailureCount "a" ≠ 0 ∧
     (applyOpState stReset (PoolOp.acquire 3)).tokenFailureCount "a" = 0 ∧
     (PoolOp.acquire 3 = PoolOp.markSuccess "a" ∨
      ∃ now, PoolOp.acquire 3 = PoolOp.acquire now ∧ resetFires stReset now = true)) :=
  ⟨⟨(claimC9_frame.1 stC7 1000).1,
    by decide, by decide,
    (claimC9_frame.1 stC7 1000).2 "a" (by decide) (by decide)⟩,
   ⟨by decide, by decide,
    claimC9_frame.2.1 stReset "a" 2 (by decide) (by decide) (by decide)⟩,
   ⟨by decide, by decide,
    claimC9_frame.2.2 stReset (PoolOp.acquire 3) "a" (by decide) (by decide)⟩⟩

/-- Claim C10: the status snapshot computes its available count as the size
of the pool list minus the size of the failed set, as a possibly negative
integer, and lists one detail row per pool entry; after five failure
markings on a one-credential pool the credential has been evicted from the
list but remains in the failed set, so the snapshot reports total 0,
failed 1, available -1, with an empty detail list that silently omits the
evicted-but-still-failed credential. -/
theorem claimC10_status :
    (∀ st : TokenManager,
      (getPoolStatus st).availableTokens =
        (st.tokens.length : Int) - (st.failedTokens.length : Int) ∧
      (getPoolStatus st).tokenDetails.length = st.tokens.length) ∧
    getPoolStatus (iterateMarkFailed (TokenManager.init ["credA"]) "credA" 5) =
      { totalTokens := 0, failedCount := 1, availableTokens := -1, tokenDetails := [] } ∧
    "credA" ∈ (iterateMarkFailed (TokenManager.init ["credA"]) "credA" 5).failedTokens ∧
    "credA" ∉ (iterateMarkFailed (TokenManager.init ["credA"]) "credA" 5).tokens :=
  ⟨fun st => ⟨rfl, by simp [getPoolStatus]⟩, by decide, by decide, by decide⟩
